import Mathlib

/-!
# Verification of the nursing-credential backend (Kredensial_Perawat)

A shallow embedding, in Lean 4, of the RBAC / identity component of the
repository: the user schema and its statics/methods (`models/user.js`,
given as `src/unnamed/part_000`), the role policy table
(`backend/config/roles.js`), the authorization middleware chain
(`backend/middleware/roleAuth.js`), the login/register routes of the
active server (`src/unnamed/part_001`) and the blacklist-based auth router
embedded in `backend/routes/exams.js`.

JavaScript strings are modelled as `String`, optional / possibly-absent
fields as `Option`, JS truthiness of a string field as "present and not
empty", dates as `Nat` timestamps, and the Mongo collection as a
`List UserRec` searched front-to-back (`findOne` returns the first
match).  External primitives (bcrypt, jwt signature checking) are passed
in as function parameters.
-/

/-! ## JS string helpers -/

/-- Truthiness of a JS string-valued field: `undefined`, `null` and `""`
are falsy, every other string is truthy. -/
def jsTruthy : Option String → Bool
  | none => false
  | some s => s ≠ ""

/-- Falsiness of a JS string-valued field (`!this.npk`). -/
def jsFalsy (o : Option String) : Bool := !(jsTruthy o)

/-- ASCII decimal digit test. -/
def isDigitChar (c : Char) : Bool := '0' ≤ c ∧ c ≤ '9'

/-- JS number-to-string conversion followed by padStart 4 with zeros. -/
def padStart4 (n : Nat) : String :=
  let s := toString n
  if s.length < 4 then String.mk (List.replicate (4 - s.length) '0') ++ s else s

/-- The regex test of the npk validator in the schema: the string is
exactly `NPK` followed by four decimal digits. -/
def npkFormat (s : String) : Bool :=
  match s.toList with
  | 'N' :: 'P' :: 'K' :: d1 :: d2 :: d3 :: d4 :: [] =>
      isDigitChar d1 && isDigitChar d2 && isDigitChar d3 && isDigitChar d4
  | _ => false

/-- Model of the parseInt-after-replace step of the hook: drop the `NPK`
prefix and read the remaining digits as a number (only applied to
format-valid npks). -/
def npkSuffix (s : String) : Nat :=
  ((s.toList.drop 3).foldl (fun n c => n * 10 + (c.toNat - 48)) 0)

/-- Whitespace test used to model JS `String.trim` and the `\s` class. -/
def isWsChar (c : Char) : Bool := c = ' ' || c = '\t' || c = '\n' || c = '\r'

/-- JS `String.trim()`. -/
def jsTrim (s : String) : String :=
  String.mk (((s.toList.dropWhile isWsChar).reverse.dropWhile isWsChar).reverse)

/-- JS `String.toLowerCase()` (ASCII). -/
def jsLower (s : String) : String := String.mk (s.toList.map Char.toLower)

/-- Is there a `'.'` in the list that has at least one character after it? -/
def dotNotLast : List Char → Bool
  | '.' :: _ :: _ => true
  | _ :: rest => dotNotLast rest
  | [] => false

/-- The email validator of the schema: exactly one at-sign, a nonempty
local part, a domain in which some dot has at least one character on each
side, and no whitespace anywhere. -/
def emailFormat (s : String) : Bool :=
  let cs := s.toList
  match cs.splitOn '@' with
  | [local_, domain] =>
      local_ ≠ [] && local_.all (fun c => !isWsChar c) &&
      domain.all (fun c => !isWsChar c) &&
      (match domain with
       | [] => false
       | _ :: rest => dotNotLast rest)
  | _ => false

/-! ## Role policy table (`backend/config/roles.js`) -/

/-- The `rolePermissions` table: `admin`, `mitra` and `perawat` have
entries; any other role (including `kepala-unit`) falls back to `[]`
(`rolePermissions[userRole] || []`). -/
def rolePermsOf : String → List String
  | "admin" =>
      ["view_credentials", "create_credentials", "edit_credentials",
       "delete_credentials", "manage_users", "view_reports", "system_settings"]
  | "mitra" =>
      ["view_credentials", "create_credentials", "edit_credentials", "view_reports"]
  | "perawat" => ["view_credentials", "create_credentials"]
  | _ => []

/-- The `roleHierarchy` table (`roleHierarchy[role] || 0`). -/
def roleLevelOf : String → Nat
  | "perawat" => 1
  | "mitra" => 2
  | "admin" => 3
  | _ => 0

/-- `getRoleRedirectUrl` (`roleRedirects[role] || "/"`). -/
def roleRedirectOf : String → String
  | "admin" => "/dashboard-kepala-unit"
  | "mitra" => "/dashboard-mitra-bestari"
  | "perawat" => "/dashboard-perawat"
  | _ => "/"

/-- The `permissions` enum of the user schema. -/
def permissionEnum : List String :=
  ["view_credentials", "create_credentials", "edit_credentials",
   "delete_credentials", "manage_users", "view_reports", "system_settings"]

/-- The `role` enum of the user schema. -/
def roleEnum : List String := ["admin", "mitra", "perawat", "kepala-unit"]

/-! ## Identity record (`models/user.js` schema) -/

/-- A stored user document.  `mongoId` models the Mongo `_id`, `uid` the
uuid-valued `id` field of the schema; optional schema fields are
`Option`s; dates are `Nat` timestamps. -/
structure UserRec where
  mongoId : String
  uid : String
  username : String
  fullName : String
  email : String
  password : String
  npk : Option String
  role : String
  permissions : List String
  unit : Option String
  isActive : Bool
  lastLogin : Option Nat
  createdAt : Nat
  deriving Repr, DecidableEq

/-- Full document validation, as run by mongoose on `save()`: username
length 3–30, email shape, password minlength 8, npk required exactly when
the role is `perawat` and format-checked when present, role in its enum,
permissions in their enum, unit required for `perawat` and `kepala-unit`,
fullName maxlength 100.  Required treats an empty string as missing. -/
def userValid (u : UserRec) : Bool :=
  (3 ≤ u.username.toList.length && u.username.toList.length ≤ 30) &&
  (u.fullName.toList.length ≤ 100) &&
  (u.email ≠ "" && emailFormat u.email) &&
  (u.password ≠ "" && 8 ≤ u.password.toList.length) &&
  (match u.npk with
   | none => u.role ≠ "perawat"
   | some v => v ≠ "" && npkFormat v) &&
  (roleEnum.contains u.role) &&
  (u.permissions.all permissionEnum.contains) &&
  (if u.role = "perawat" || u.role = "kepala-unit" then jsTruthy u.unit else true)

/-! ## The npk pre-save hook (`userSchema.pre("save")`, part_000 lines 134–155) -/

/-- The findOne query of the hook, filtering on role perawat and a
format-valid npk, sorted by npk descending: among stored perawat records
with a format-valid npk, the greatest npk string (for fixed-length `NPK`
plus 4 digits, string order is numeric order). -/
def maxPerawatNpk (store : List UserRec) : Option String :=
  (store.filterMap (fun r =>
      if r.role = "perawat" then
        match r.npk with
        | some v => if npkFormat v then some v else none
        | none => none
      else none)).foldl
    (fun acc v =>
      match acc with
      | none => some v
      | some w => if w < v then some v else some w)
    none

/-- The npk-assignment pre-save hook: when the role of the document is
`perawat` and its npk is falsy, look up the greatest stored npk, add one
to its numeric suffix (starting from 1 when there is none), and assign
the padded number — note that the template literal in the source contains
no `NPK` prefix (part_000 line 149). -/
def npkHook (store : List UserRec) (u : UserRec) : UserRec :=
  if u.role = "perawat" && jsFalsy u.npk then
    let nextNumber :=
      match maxPerawatNpk store with
      | some v => npkSuffix v + 1
      | none => 1
    { u with npk := some (padStart4 nextNumber) }
  else u

/-- Saving a new document: run the npk pre-save hook, then validate; a
validation failure rejects the save, otherwise the document is appended
to the store.  The password-hashing pre-save hook only rewrites the
password field and is folded into the stored `password` value here. -/
def saveNew (store : List UserRec) (u : UserRec) : Except String (UserRec × List UserRec) :=
  let u' := npkHook store u
  if userValid u' then .ok (u', store ++ [u']) else .error "ValidationError"

/-- Saving an already-stored document (`this.save()` from an instance
method): npk pre-save hook, then full validation, then replacement of the
record with the same `mongoId`. -/
def replaceById (store : List UserRec) (u : UserRec) : List UserRec :=
  store.map (fun r => if r.mongoId = u.mongoId then u else r)

def saveExisting (store : List UserRec) (u : UserRec) : Except String (UserRec × List UserRec) :=
  let u' := npkHook store u
  if userValid u' then .ok (u', replaceById store u') else .error "ValidationError"

/-! ## User model statics and methods (part_000) -/

/-- The findByUsername static: findOne on username with isActive true. -/
def findByUsername (store : List UserRec) (username : String) : Option UserRec :=
  store.find? (fun r => r.username = username && r.isActive)

/-- The findByEmail static: findOne on email with isActive true (the
includePassword flag only controls projection of the password field). -/
def findByEmail (store : List UserRec) (email : String) : Option UserRec :=
  store.find? (fun r => r.email = email && r.isActive)

/-- The findActiveById static: findOne matching the given id against
either the Mongo id or the uuid id field, with isActive true. -/
def findActiveById (store : List UserRec) (id : String) : Option UserRec :=
  store.find? (fun r => (r.mongoId = id || r.uid = id) && r.isActive)

/-- Mongoose Model.findById: findOne on the Mongo id only — no isActive
filter and no uuid-field match. -/
def findByIdMongo (store : List UserRec) (id : String) : Option UserRec :=
  store.find? (fun r => r.mongoId = id)

/-- The updateLastLogin method: set lastLogin to now and call save (which
runs the pre-save hooks and full document validation); a save error is
rethrown with a fixed message. -/
def updateLastLoginM (now : Nat) (store : List UserRec) (r : UserRec) :
    Except String (UserRec × List UserRec) :=
  match saveExisting store { r with lastLogin := some now } with
  | .ok x => .ok x
  | .error _ => .error "Failed to update last login"

/-- The softDelete method: set isActive to false and call save (pre-save
hooks plus full document validation); a save error is rethrown with a
fixed message. -/
def softDeleteM (store : List UserRec) (r : UserRec) :
    Except String (UserRec × List UserRec) :=
  match saveExisting store { r with isActive := false } with
  | .ok x => .ok x
  | .error _ => .error "Failed to deactivate account"

/-! ## updateUser (part_000 lines 306–343) -/

/-- A request patch for updateUser: the eight allow-listed fields, each
optionally present, plus arbitrary further keys (`extra`) that the
allow-list filter drops. -/
structure Patch where
  username : Option String := none
  email : Option String := none
  fullName : Option String := none
  role : Option String := none
  unit : Option String := none
  npk : Option String := none
  permissions : Option (List String) := none
  isActive : Option Bool := none
  extra : List (String × String) := []
  deriving Repr, DecidableEq

/-- After the allow-list reduce, is the updates object nonempty?  Keys in
`extra` are never kept, so only the eight allow-listed fields count. -/
def patchHasValidField (p : Patch) : Bool :=
  p.username.isSome || p.email.isSome || p.fullName.isSome || p.role.isSome ||
  p.unit.isSome || p.npk.isSome || p.permissions.isSome || p.isActive.isSome

/-- Apply the allow-listed updates to a record.  Fields absent from the
patch — and every key in `extra` — leave the record unchanged. -/
def applyPatch (r : UserRec) (p : Patch) : UserRec :=
  { r with
    username := p.username.getD r.username
    email := p.email.getD r.email
    fullName := p.fullName.getD r.fullName
    role := p.role.getD r.role
    unit := match p.unit with | some v => some v | none => r.unit
    npk := match p.npk with | some v => some v | none => r.npk
    permissions := p.permissions.getD r.permissions
    isActive := p.isActive.getD r.isActive }

/-- Update validators (runValidators true) on the updated paths: field
format constraints of each present field.  Conditional required
validators do not fire on an update. -/
def patchValid (p : Patch) : Bool :=
  (match p.username with
   | some s => 3 ≤ s.toList.length && s.toList.length ≤ 30
   | none => true) &&
  (match p.email with | some s => s ≠ "" && emailFormat s | none => true) &&
  (match p.fullName with | some s => s.toList.length ≤ 100 | none => true) &&
  (match p.role with | some s => roleEnum.contains s | none => true) &&
  (match p.npk with | some s => npkFormat s | none => true) &&
  (match p.permissions with
   | some ps => ps.all permissionEnum.contains
   | none => true)

/-- The findOneAndUpdate query of updateUser: either id field matches —
with no isActive filter. -/
def findUserByEitherId (store : List UserRec) (id : String) : Option UserRec :=
  store.find? (fun r => r.mongoId = id || r.uid = id)

/-- Unique-index collision detection against the other stored records,
reported as the colliding field name, in index order. -/
def dupField (store : List UserRec) (r' : UserRec) : Option String :=
  if store.any (fun r => r.mongoId ≠ r'.mongoId && r.username = r'.username) then
    some "username"
  else if store.any (fun r => r.mongoId ≠ r'.mongoId && r.email = r'.email) then
    some "email"
  else if store.any (fun r =>
      r.mongoId ≠ r'.mongoId && r'.npk.isSome && r.npk = r'.npk) then
    some "npk"
  else none

/-- The updateUser static: reduce the patch to the allow-listed keys,
reject an empty updates object, run update validators, find the record by
either id (active or not), apply the updates, and surface unique-index
collisions as field-already-exists errors. -/
def updateUser (store : List UserRec) (userId : String) (p : Patch) :
    Except String (UserRec × List UserRec) :=
  if !(patchHasValidField p) then .error "No valid fields to update"
  else if !(patchValid p) then .error "Failed to update user: ValidationError"
  else
    match findUserByEitherId store userId with
    | none => .error "User not found"
    | some r =>
      let r' := applyPatch r p
      match dupField store r' with
      | some f => .error (f ++ " already exists")
      | none => .ok (r', replaceById store r')

/-! ## Token payloads and the authorization middleware (roleAuth.js) -/

/-- The claim bundle a token may carry under its user key. -/
structure TokenUser where
  id : Option String := none
  email : Option String := none
  role : Option String := none
  username : Option String := none
  unit : Option String := none
  fullName : Option String := none
  permissions : Option (List String) := none
  deriving Repr, DecidableEq

/-- A decoded JWT payload: either a nested user object, flat claim
fields, or (for the tokens the active server signs) just a userId. -/
structure Decoded where
  user : Option TokenUser := none
  userId : Option String := none
  id : Option String := none
  email : Option String := none
  role : Option String := none
  username : Option String := none
  unit : Option String := none
  fullName : Option String := none
  permissions : Option (List String) := none
  deriving Repr, DecidableEq

/-- Outcome of the authenticate stage: pass control onward with the
attached req.user, or short-circuit with a status and message. -/
inductive MWResult where
  | next (user : TokenUser)
  | halt (status : Nat) (message : String)
  deriving Repr, DecidableEq

/-- Outcome of a pure gating stage (requireRole, requireMinimumRole,
requiredPermission): proceed or short-circuit. -/
inductive GateResult where
  | proceed
  | halt (status : Nat) (message : String)
  deriving Repr, DecidableEq

/-- The authenticateToken middleware of roleAuth.js: missing token gives
401; a verification error gives 403; a payload with a nested user object
uses it as the claims, otherwise a truthy flat role builds the claims
from the flat fields (defaulting permissions to the empty list), and any
other shape gives 403; finally a falsy role on the chosen claims gives
403, and otherwise the claims are attached and the chain continues.
The external jwt verification is the `jwtVerify` parameter. -/
def authenticateToken (jwtVerify : String → Option Decoded)
    (token : Option String) : MWResult :=
  match token with
  | none => .halt 401 "Access token required"
  | some t =>
    match jwtVerify t with
    | none => .halt 403 "Invalid or expired token"
    | some decoded =>
      let userData? : Option TokenUser :=
        match decoded.user with
        | some u => some u
        | none =>
          if jsTruthy decoded.role then
            some { id := decoded.id, email := decoded.email,
                   role := decoded.role, username := decoded.username,
                   unit := decoded.unit, fullName := decoded.fullName,
                   permissions := some (decoded.permissions.getD []) }
          else none
      match userData? with
      | none => .halt 403 "Invalid or expired token"
      | some userData =>
        if !(jsTruthy userData.role) then .halt 403 "Invalid or expired token"
        else .next userData

/-- Role-table lookup on a possibly-absent role (an absent key falls back
to the empty list). -/
def rolePermsOpt : Option String → List String
  | some r => rolePermsOf r
  | none => []

/-- The hasPermission helper of roleAuth.js: the required permission is
in the role-table permissions of the user role, or the record-level
permissions list is present and contains it. -/
def hasPermission (userRole : Option String) (userPermissions : Option (List String))
    (requiredPerm : String) : Bool :=
  if (rolePermsOpt userRole).contains requiredPerm then true
  else
    match userPermissions with
    | some ps => ps.contains requiredPerm
    | none => false

/-- The requiredPermission middleware factory: 401 without a req.user,
403 with a redirect-bearing denial message when hasPermission fails,
otherwise proceed. -/
def requiredPermission (permission : String) (user? : Option TokenUser) : GateResult :=
  match user? with
  | none => .halt 401 "User not authenticated"
  | some u =>
    if !(hasPermission u.role u.permissions permission) then
      .halt 403 ("Access denied. Permission \x22" ++ permission ++ "\x22 required.")
    else .proceed

/-- The requireRole middleware factory: 401 without a req.user, 403 when
the role is falsy, 403 when the role is not in the allowed list,
otherwise proceed. -/
def requireRole (allowedRoles : List String) (user? : Option TokenUser) : GateResult :=
  match user? with
  | none => .halt 401 "User not authenticated"
  | some u =>
    if !(jsTruthy u.role) then .halt 403 "User role not defined"
    else if !(allowedRoles.contains (u.role.getD "")) then
      .halt 403 ("Insufficient permissions. Required roles: " ++
        String.intercalate ", " allowedRoles)
    else .proceed

/-- The requireMinimumRole middleware factory: 401 without a req.user,
then a hierarchy-level comparison with unknown roles at level 0. -/
def requireMinimumRole (minimumRole : String) (user? : Option TokenUser) : GateResult :=
  match user? with
  | none => .halt 401 "User not authenticated"
  | some u =>
    if roleLevelOf (u.role.getD "") < roleLevelOf minimumRole then
      .halt 403 ("Access denied. Minimum role \x22" ++ minimumRole ++ "\x22 required.")
    else .proceed

/-- Outcome of requireActiveUser: proceed with the re-loaded record and
the store after its lastLogin update, or short-circuit. -/
inductive ActiveResult where
  | proceed (userDetails : UserRec) (store : List UserRec)
  | halt (status : Nat) (message : String)
  deriving Repr, DecidableEq

/-- The requireActiveUser middleware: 401 when req.user or its id is
falsy; the record is re-loaded with Model.findById on the Mongo id (no
isActive filter); 403 when nothing is found; otherwise updateLastLogin
runs (500 if it throws) and the chain continues with the record. -/
def requireActiveUser (now : Nat) (store : List UserRec)
    (user? : Option TokenUser) : ActiveResult :=
  match user? with
  | none => .halt 401 "User not authenticated"
  | some u =>
    if !(jsTruthy u.id) then .halt 401 "User not authenticated"
    else
      match findByIdMongo store (u.id.getD "") with
      | none => .halt 403 "Account is deactivated or not found"
      | some foundUser =>
        match updateLastLoginM now store foundUser with
        | .ok (r', store') => .proceed r' store'
        | .error _ => .halt 500 "Error checking user status"

/-! ## The active server (part_001): login route and token payloads -/

/-- The token payload the active server signs at both login and
registration: only the Mongo id, under the userId key.  The fully
populated claim bundle built at registration (tokenPayload, part_001
lines 663–673) is never passed to the signing call. -/
def signedLoginPayload (mongoId : String) : Decoded :=
  { userId := some mongoId }

/-- The findOne of the login route: email matches the lowercased trimmed
identifier, or username matches the trimmed identifier; note the absence
of an isActive filter. -/
def findLoginUser (store : List UserRec) (identifier : String) : Option UserRec :=
  store.find? (fun r =>
    r.email = jsLower (jsTrim identifier) || r.username = jsTrim identifier)

/-- Observable outcome of the login route of the active server, as a
status code and message: 400 for missing fields, 401 with a generic
message when no user matches the identifier, 401 with the same generic
message when the password comparison fails, 200 on success.  The bcrypt
comparison against the stored hash is the `bcryptCompare` parameter
(candidate first, stored hash second). -/
def loginResponse (store : List UserRec) (bcryptCompare : String → String → Bool)
    (identifier password : String) : Nat × String :=
  if identifier = "" || password = "" then
    (400, "Email/username and password are required")
  else
    match findLoginUser store identifier with
    | none => (401, "Invalid credentials")
    | some u =>
      if bcryptCompare password u.password then (200, "Login successful")
      else (401, "Invalid credentials")

/-! ## The blacklist-based auth router (embedded in backend/routes/exams.js) -/

/-- jwt.verify outcomes distinguished by the router: expiry versus any
other verification failure. -/
inductive JwtError where
  | expired
  | invalid
  deriving Repr, DecidableEq

/-- The token revocation set, modelled as a list with membership; the
scheduled eviction at natural expiry (a setTimeout) is a timing behaviour
outside this state model. -/
def addTokenToBlacklist (bl : List String) (t : String) : List String := t :: bl

def isTokenBlacklisted (bl : List String) (t : String) : Bool := bl.contains t

/-- Outcome of the verifyToken middleware of the router: continue with
the (possibly absent) nested user claims and the raw token attached to
the request, or short-circuit. -/
inductive VerifyResult where
  | next (user : Option TokenUser) (token : String)
  | halt (status : Nat) (message : String)
  deriving Repr, DecidableEq

/-- The verifyToken middleware: 401 without a token; 401 with a
session-expired message when the token is in the blacklist; then jwt
verification — expiry and other failures give 401 with distinct
messages, success attaches the nested user claims and the token. -/
def verifyTokenBL (bl : List String) (jwtVerify : String → Except JwtError Decoded)
    (token : Option String) : VerifyResult :=
  match token with
  | none => .halt 401 "Authentication required"
  | some t =>
    if isTokenBlacklisted bl t then
      .halt 401 "Session expired. Please login again."
    else
      match jwtVerify t with
      | .ok decoded => .next decoded.user t
      | .error e =>
        .halt 401 (if e = JwtError.expired then "Session expired" else "Invalid token")

/-- The logout route of the router: verifyToken gates it; on success the
presented token is added to the blacklist and a success response is
returned, otherwise the gate response passes through unchanged. -/
def logoutRoute (bl : List String) (jwtVerify : String → Except JwtError Decoded)
    (token : Option String) : (Nat × String) × List String :=
  match verifyTokenBL bl jwtVerify token with
  | .halt s m => ((s, m), bl)
  | .next _ t => ((200, "Logged out successfully"), addTokenToBlacklist bl t)

/-- Decidable equality for operation results. -/
instance {ε α : Type} [DecidableEq ε] [DecidableEq α] : DecidableEq (Except ε α) := fun a b =>
  match a, b with
  | .ok x, .ok y =>
    if h : x = y then .isTrue (h ▸ rfl) else .isFalse (fun hc => h (Except.ok.inj hc))
  | .error x, .error y =>
    if h : x = y then .isTrue (h ▸ rfl) else .isFalse (fun hc => h (Except.error.inj hc))
  | .ok _, .error _ => .isFalse (fun hc => Except.noConfusion hc)
  | .error _, .ok _ => .isFalse (fun hc => Except.noConfusion hc)

/-! ## Concrete fixtures -/

/-- A perawat creation candidate with no npk supplied. -/
def nurseCandidate : UserRec :=
  { mongoId := "m-new", uid := "u-new", username := "nurseaa", fullName := "",
    email := "a@x.com", password := "hashedsecret", npk := none,
    role := "perawat", permissions := [], unit := some "ICU",
    isActive := true, lastLogin := none, createdAt := 10 }

/-- A stored perawat holding the format-valid npk NPK0007. -/
def nurseSeven : UserRec :=
  { mongoId := "m7", uid := "u7", username := "nursebee", fullName := "",
    email := "b@x.com", password := "hashedsecret", npk := some "NPK0007",
    role := "perawat", permissions := [], unit := some "ICU",
    isActive := true, lastLogin := none, createdAt := 1 }

/-- A schema-valid perawat record (npk present and well-formed). -/
def validNurse : UserRec :=
  { nurseCandidate with npk := some "NPK0001" }

/-- A soft-deleted admin record, otherwise schema-valid. -/
def inactiveStored : UserRec :=
  { mongoId := "m-in", uid := "u-in", username := "adminuser", fullName := "",
    email := "ad@x.com", password := "hashedsecret", npk := none,
    role := "admin", permissions := [], unit := none,
    isActive := false, lastLogin := none, createdAt := 0 }

/-- Token claims pointing at the soft-deleted record. -/
def inactiveTU : TokenUser := { id := some "m-in", role := some "admin" }

/-- Token claims of a perawat session with empty record-level permissions. -/
def perawatTU : TokenUser :=
  { id := some "mP", role := some "perawat", permissions := some [] }

/-- Token claims of an admin session with empty record-level permissions. -/
def adminTU : TokenUser :=
  { id := some "mAd", role := some "admin", permissions := some [] }

/-- A decode function for the token the active server signs. -/
def decodeSignedLogin : String → Option Decoded :=
  fun _ => some (signedLoginPayload "64a1")

/-! ## C1 -/

/-- C1: for a user created with role perawat and no npk, the pre-save
hook assigns the bare zero-padded number with no NPK prefix — 0001 on an
empty store, 0008 after NPK0007 — which fails the npk format validator of
the very same schema, so the save is rejected; only the numeric-suffix
arithmetic of the claim (max plus one, zero-padded to 4 digits) matches
the code. -/
theorem c1_npkHook_emits_prefixless_npk :
    (npkHook [] nurseCandidate).npk = some "0001" ∧
    npkFormat "0001" = false ∧
    saveNew [] nurseCandidate = .error "ValidationError" ∧
    (npkHook [nurseSeven] nurseCandidate).npk = some "0008" ∧
    saveNew [nurseSeven] nurseCandidate = .error "ValidationError" := by
  decide

/-! ## C2 -/

/-- C2: the token signed at login (and registration) by the active server
carries only the userId claim — no nested user object, no role and none
of the rest of the identity bundle — and the authenticateToken middleware
stage rejects exactly this payload shape with 403 instead of accepting
it. -/
theorem c2_login_token_lacks_bundle_and_is_rejected :
    (signedLoginPayload "64a1").user = none ∧
    (signedLoginPayload "64a1").role = none ∧
    (signedLoginPayload "64a1").permissions = none ∧
    authenticateToken decodeSignedLogin (some "signed.jwt") =
      .halt 403 "Invalid or expired token" := by
  decide

/-! ## C4 -/

/-- C4: requireActiveUser re-loads the record with Model.findById, which
ignores isActive, so a request whose identity points at a soft-deleted
record is passed through to the next stage (with its lastLogin updated)
rather than short-circuited with 403. -/
theorem c4_requireActiveUser_passes_inactive_user :
    inactiveStored.isActive = false ∧
    requireActiveUser 99 [inactiveStored] (some inactiveTU) =
      .proceed { inactiveStored with lastLogin := some 99 }
        [{ inactiveStored with lastLogin := some 99 }] := by
  decide

/-! ## C5 -/

/-- A patch touching one allow-listed field and one unknown field. -/
def renamePatch : Patch := { fullName := some "Updated Name", extra := [("hacked", "x")] }

/-- C5 counterexample: with a store whose only record matching the id is
soft-deleted, no active record matches, yet updateUser succeeds and
updates the inactive record instead of failing with a not-found error —
the findOneAndUpdate query has no isActive filter. -/
theorem c5_updateUser_updates_inactive_record :
    inactiveStored.isActive = false ∧
    updateUser [inactiveStored] "m-in" renamePatch =
      .ok ({ inactiveStored with fullName := "Updated Name" },
           [{ inactiveStored with fullName := "Updated Name" }]) := by
  decide

/-- C5 (amended): for a patch with at least one allow-listed field whose
present values pass the update validators, updateUser fails with the
not-found error exactly when no record at all — active or inactive —
matches the given id; when a record matches and no unique index collides,
the result applies exactly the allow-listed present fields, every other
stored field (password, lastLogin, createdAt and both ids) is unchanged,
and the non-allow-listed keys of the patch have no effect at all. -/
theorem c5_updateUser_allowlist_frame (store : List UserRec) (userId : String)
    (p : Patch) (hvf : patchHasValidField p = true) (hpv : patchValid p = true) :
    (findUserByEitherId store userId = none →
      updateUser store userId p = .error "User not found") ∧
    (∀ r, findUserByEitherId store userId = some r →
      dupField store (applyPatch r p) = none →
      updateUser store userId p =
        .ok (applyPatch r p, replaceById store (applyPatch r p))) ∧
    (∀ r, (applyPatch r p).password = r.password ∧
          (applyPatch r p).lastLogin = r.lastLogin ∧
          (applyPatch r p).createdAt = r.createdAt ∧
          (applyPatch r p).mongoId = r.mongoId ∧
          (applyPatch r p).uid = r.uid) ∧
    (∀ r extra2, applyPatch r { p with extra := extra2 } = applyPatch r p) := by
  refine ⟨?_, ?_, ?_, ?_⟩
  · intro hnone
    simp [updateUser, hvf, hpv, hnone]
  · intro r hr hdup
    simp [updateUser, hvf, hpv, hr, hdup]
  · intro r
    simp [applyPatch]
  · intro r extra2
    simp [applyPatch]

/-- C5 witness: the amended theorem at a concrete input — an id matching
nothing in an empty store yields the not-found error. -/
theorem c5_updateUser_allowlist_frame_witness :
    updateUser [] "zz" renamePatch = .error "User not found" :=
  (c5_updateUser_allowlist_frame [] "zz" renamePatch (by decide) (by decide)).1 rfl

/-! ## C6 -/

/-- The npk pre-save hook leaves a document unchanged whenever the
document passes full validation: a perawat then has a nonempty npk, so
the hook condition is false. -/
theorem npkHook_noop_of_valid (s : List UserRec) (u : UserRec)
    (h : userValid u = true) : npkHook s u = u := by
  unfold npkHook
  split
  · rename_i hcond
    exfalso
    simp only [Bool.and_eq_true, decide_eq_true_eq] at hcond
    obtain ⟨hrole, hfalsy⟩ := hcond
    unfold userValid at h
    cases hnv : u.npk with
    | none =>
      rw [hnv, hrole] at h
      simp at h
    | some v =>
      have hvempty : v = "" := by
        rw [hnv] at hfalsy
        simp only [jsFalsy, jsTruthy, Bool.not_eq_true'] at hfalsy
        exact of_not_not (by simpa using hfalsy)
      rw [hnv, hvempty] at h
      simp at h
  · rfl

/-- A perawat record with a stale constraint violation: unit is missing
while the role requires it; every field relevant to lastLogin is fine. -/
def stalePerawat : UserRec :=
  { mongoId := "m-st", uid := "u-st", username := "nursecee", fullName := "",
    email := "s@x.com", password := "hashedsecret", npk := some "NPK0002",
    role := "perawat", permissions := [], unit := none,
    isActive := true, lastLogin := none, createdAt := 0 }

/-- C6 counterexample: updateLastLogin saves with full document
validation, so on a record whose unrelated unit field violates its schema
constraint the call fails — restoring the unit makes the same record
pass validation, showing the failure comes from the unrelated field. -/
theorem c6_updateLastLogin_fails_on_stale_field :
    updateLastLoginM 44 [stalePerawat] stalePerawat =
      .error "Failed to update last login" ∧
    userValid { stalePerawat with lastLogin := some 44, unit := some "ICU" } = true := by
  decide

/-- C6 (amended): updateLastLogin sets lastLogin to the current time but
saves with full document validation (no validation bypass), so it can
fail when an unrelated stored field violates a schema constraint; when
the record with lastLogin updated passes validation it succeeds and
changes nothing but lastLogin. -/
theorem c6_updateLastLogin_validates (now : Nat) (store : List UserRec) (r : UserRec)
    (h : userValid { r with lastLogin := some now } = true) :
    updateLastLoginM now store r =
      .ok ({ r with lastLogin := some now },
           replaceById store { r with lastLogin := some now }) := by
  unfold updateLastLoginM saveExisting
  rw [npkHook_noop_of_valid store _ h]
  simp [h]

/-- C6 witness: the amended theorem on a schema-valid perawat record. -/
theorem c6_updateLastLogin_validates_witness :
    updateLastLoginM 7 [validNurse] validNurse =
      .ok ({ validNurse with lastLogin := some 7 },
           [{ validNurse with lastLogin := some 7 }]) :=
  c6_updateLastLogin_validates 7 [validNurse] validNurse (by decide)

/-! ## C7 -/

/-- The hasPermission helper computes exactly the union of the role-table
permissions and the (defaulted-to-empty) record-level permissions. -/
theorem hasPermission_eq_union (ro : Option String) (ps : Option (List String))
    (tag : String) :
    hasPermission ro ps tag =
      ((rolePermsOpt ro).contains tag || (ps.getD []).contains tag) := by
  unfold hasPermission
  cases ps with
  | none =>
    cases hc : (rolePermsOpt ro).contains tag <;> simp [hc]
  | some l =>
    cases hc : (rolePermsOpt ro).contains tag <;> simp [hc]

/-- C7: for an authenticated request, the requiredPermission stage
proceeds exactly when the tag is in the union of the role-table
permissions of the request role and the record-level permissions list,
and otherwise short-circuits with the 403 denial; in particular it denies
manage_users to a perawat session with empty record permissions and
allows it to an admin session. -/
theorem c7_requiredPermission_additive :
    (∀ (u : TokenUser) (tag : String),
      (requiredPermission tag (some u) = .proceed ↔
        ((rolePermsOpt u.role).contains tag || (u.permissions.getD []).contains tag) = true) ∧
      (((rolePermsOpt u.role).contains tag || (u.permissions.getD []).contains tag) = false →
        requiredPermission tag (some u) =
          .halt 403 ("Access denied. Permission \x22" ++ tag ++ "\x22 required."))) ∧
    requiredPermission "manage_users" (some perawatTU) =
      .halt 403 "Access denied. Permission \x22manage_users\x22 required." ∧
    requiredPermission "manage_users" (some adminTU) = .proceed := by
  refine ⟨fun u tag => ?_, by decide, by decide⟩
  have hperm := hasPermission_eq_union u.role u.permissions tag
  constructor
  · simp only [requiredPermission, hperm]
    cases hu : ((rolePermsOpt u.role).contains tag || (u.permissions.getD []).contains tag) <;>
      simp [hu]
  · intro hno
    simp only [requiredPermission, hperm, hno]
    simp

/-- C7 witness: the general clause of the theorem applied at the perawat
session and the manage_users tag, with its hypothesis discharged by
computation. -/
theorem c7_requiredPermission_additive_witness :
    requiredPermission "manage_users" (some perawatTU) =
      .halt 403 ("Access denied. Permission \x22" ++ "manage_users" ++ "\x22 required.") :=
  (c7_requiredPermission_additive.1 perawatTU "manage_users").2 (by decide)

/-! ## C9 -/

/-- C9: with both request fields nonempty, an identifier matching no user
and a matching identifier with a failing password comparison produce the
identical observable outcome — the same 401 status and the same generic
message — so the login response does not reveal whether the user
exists. -/
theorem c9_login_no_enumeration (store : List UserRec)
    (cmp : String → String → Bool) (identifier password : String)
    (hid : identifier ≠ "") (hpw : password ≠ "")
    (h : findLoginUser store identifier = none ∨
         ∃ u, findLoginUser store identifier = some u ∧
           cmp password u.password = false) :
    loginResponse store cmp identifier password = (401, "Invalid credentials") := by
  unfold loginResponse
  rcases h with hnone | ⟨u, hu, hc⟩
  · simp [hid, hpw, hnone]
  · simp [hid, hpw, hu, hc]

/-- C9 witness: with a single stored nurse, an unknown identifier and a
known identifier with a failing password comparison both yield the same
generic 401 outcome. -/
theorem c9_login_no_enumeration_witness :
    loginResponse [validNurse] (fun _ _ => false) "ghostuser" "whatever12" =
      (401, "Invalid credentials") ∧
    loginResponse [validNurse] (fun _ _ => false) "nurseaa" "wrongpass1" =
      (401, "Invalid credentials") :=
  ⟨c9_login_no_enumeration [validNurse] (fun _ _ => false) "ghostuser" "whatever12"
      (by decide) (by decide) (Or.inl (by decide)),
   c9_login_no_enumeration [validNurse] (fun _ _ => false) "nurseaa" "wrongpass1"
      (by decide) (by decide) (Or.inr ⟨validNurse, by decide, rfl⟩)⟩

/-! ## C8 -/

/-- C8: softDelete flips isActive to false and re-saves — the record is
still present in the store afterwards, yet findByUsername, findByEmail
and findActiveById all return a not-found result for it, since each of
those queries filters on isActive.  The uniqueness hypotheses state that
no other stored record shares the username, email or ids of the deleted
one (the unique indexes of the schema). -/
theorem c8_softDelete_excluded_from_active_queries
    (store : List UserRec) (r : UserRec)
    (hmem : r ∈ store)
    (hval : userValid { r with isActive := false } = true)
    (hu : ∀ x ∈ store, x.username = r.username → x.mongoId = r.mongoId)
    (he : ∀ x ∈ store, x.email = r.email → x.mongoId = r.mongoId)
    (hid : ∀ x ∈ store, x.mongoId = r.uid ∨ x.uid = r.uid → x.mongoId = r.mongoId) :
    softDeleteM store r =
      .ok ({ r with isActive := false }, replaceById store { r with isActive := false }) ∧
    { r with isActive := false } ∈ replaceById store { r with isActive := false } ∧
    findByUsername (replaceById store { r with isActive := false }) r.username = none ∧
    findByEmail (replaceById store { r with isActive := false }) r.email = none ∧
    findActiveById (replaceById store { r with isActive := false }) r.uid = none := by
  refine ⟨?_, ?_, ?_, ?_, ?_⟩
  · unfold softDeleteM saveExisting
    rw [npkHook_noop_of_valid store _ hval]
    simp [hval]
  · unfold replaceById
    rw [List.mem_map]
    exact ⟨r, hmem, by simp⟩
  · unfold findByUsername replaceById
    rw [List.find?_eq_none]
    intro x hx
    rw [List.mem_map] at hx
    obtain ⟨a, ha, rfl⟩ := hx
    by_cases hm : a.mongoId = r.mongoId
    · simp [hm]
    · simp only [hm, if_neg, ite_false]
      intro hcontra
      simp only [Bool.and_eq_true, decide_eq_true_eq] at hcontra
      exact hm (hu a ha hcontra.1)
  · unfold findByEmail replaceById
    rw [List.find?_eq_none]
    intro x hx
    rw [List.mem_map] at hx
    obtain ⟨a, ha, rfl⟩ := hx
    by_cases hm : a.mongoId = r.mongoId
    · simp [hm]
    · simp only [hm, if_neg, ite_false]
      intro hcontra
      simp only [Bool.and_eq_true, decide_eq_true_eq] at hcontra
      exact hm (he a ha hcontra.1)
  · unfold findActiveById replaceById
    rw [List.find?_eq_none]
    intro x hx
    rw [List.mem_map] at hx
    obtain ⟨a, ha, rfl⟩ := hx
    by_cases hm : a.mongoId = r.mongoId
    · simp [hm]
    · simp only [hm, if_neg, ite_false]
      intro hcontra
      simp only [Bool.and_eq_true, Bool.or_eq_true, decide_eq_true_eq] at hcontra
      exact hm (hid a ha hcontra.1)

/-- C8 witness: the theorem on a singleton store holding a schema-valid
nurse record. -/
theorem c8_softDelete_excluded_witness :
    softDeleteM [validNurse] validNurse =
      .ok ({ validNurse with isActive := false }, [{ validNurse with isActive := false }]) ∧
    { validNurse with isActive := false } ∈ [{ validNurse with isActive := false }] ∧
    findByUsername [{ validNurse with isActive := false }] validNurse.username = none ∧
    findByEmail [{ validNurse with isActive := false }] validNurse.email = none ∧
    findActiveById [{ validNurse with isActive := false }] validNurse.uid = none :=
  c8_softDelete_excluded_from_active_queries [validNurse] validNurse
    (by decide) (by decide) (by decide) (by decide) (by decide)

/-! ## C10 -/

/-- C10: whenever authenticateToken hands control to the next stage, the
attached claims carry a truthy (nonempty) role; consequently requireRole
reduces to its allowed-list membership test alone — its unauthenticated
401 branch and role-not-defined 403 branch cannot fire — and
requireMinimumRole reduces to its hierarchy comparison alone. -/
theorem c10_authenticate_guards_unreachable (jv : String → Option Decoded)
    (t : Option String) (u : TokenUser) (allowed : List String) (minRole : String)
    (h : authenticateToken jv t = .next u) :
    jsTruthy u.role = true ∧
    requireRole allowed (some u) =
      (if allowed.contains (u.role.getD "") then .proceed
       else .halt 403 ("Insufficient permissions. Required roles: " ++
         String.intercalate ", " allowed)) ∧
    requireMinimumRole minRole (some u) =
      (if roleLevelOf (u.role.getD "") < roleLevelOf minRole then
         .halt 403 ("Access denied. Minimum role \x22" ++ minRole ++ "\x22 required.")
       else .proceed) := by
  have hrole : jsTruthy u.role = true := by
    cases t with
    | none => simp [authenticateToken] at h
    | some tk =>
      simp only [authenticateToken] at h
      cases hjv : jv tk with
      | none => rw [hjv] at h; simp at h
      | some d =>
        rw [hjv] at h
        dsimp only at h
        cases hdu : d.user with
        | some u0 =>
          rw [hdu] at h
          dsimp only at h
          rcases Bool.eq_false_or_eq_true (jsTruthy u0.role) with hr0 | hr0
          · simp [hr0] at h
            rw [← h]
            exact hr0
          · simp [hr0] at h
        | none =>
          rw [hdu] at h
          dsimp only at h
          rcases Bool.eq_false_or_eq_true (jsTruthy d.role) with hr1 | hr1
          · simp [hr1] at h
            rw [← h]
            simpa using hr1
          · simp [hr1] at h
  refine ⟨hrole, ?_, ?_⟩
  · by_cases hc : allowed.contains (u.role.getD "") = true
    · simp [requireRole, hrole, hc]
    · simp only [Bool.not_eq_true] at hc
      simp [requireRole, hrole, hc]
  · by_cases hc : roleLevelOf (u.role.getD "") < roleLevelOf minRole
    · simp [requireMinimumRole, hc]
    · simp [requireMinimumRole, hc]

/-- A decoded payload with the claims nested under the user key. -/
def nestedPerawatPayload : Decoded := { user := some perawatTU }

/-- A decode function returning the nested payload. -/
def decodeNested : String → Option Decoded := fun _ => some nestedPerawatPayload

/-- C10 witness: the theorem applied to a request authenticated with a
nested perawat payload. -/
theorem c10_authenticate_guards_unreachable_witness :
    jsTruthy perawatTU.role = true ∧
    requireRole ["admin"] (some perawatTU) =
      (if (["admin"] : List String).contains (perawatTU.role.getD "") then .proceed
       else .halt 403 ("Insufficient permissions. Required roles: " ++
         String.intercalate ", " ["admin"])) ∧
    requireMinimumRole "admin" (some perawatTU) =
      (if roleLevelOf (perawatTU.role.getD "") < roleLevelOf "admin" then
         .halt 403 ("Access denied. Minimum role \x22" ++ "admin" ++ "\x22 required.")
       else .proceed) :=
  c10_authenticate_guards_unreachable decodeNested (some "tok") perawatTU
    ["admin"] "admin" (by decide)

/-! ## C3 -/

/-- C3: a logout through the blacklist-gated route adds the presented
token to the revocation set; an immediately following verifyToken on that
exact token short-circuits with the revoked-session 401 response, while a
different valid unrevoked token for the same identity still passes. -/
theorem c3_logout_revokes_exact_token (bl : List String)
    (jv : String → Except JwtError Decoded) (t1 t2 : String) (d1 d2 : Decoded)
    (h1 : jv t1 = .ok d1) (h2 : jv t2 = .ok d2)
    (hb1 : isTokenBlacklisted bl t1 = false)
    (hb2 : isTokenBlacklisted bl t2 = false)
    (hne : t1 ≠ t2) :
    (logoutRoute bl jv (some t1)).1 = (200, "Logged out successfully") ∧
    (logoutRoute bl jv (some t1)).2 = addTokenToBlacklist bl t1 ∧
    verifyTokenBL (logoutRoute bl jv (some t1)).2 jv (some t1) =
      .halt 401 "Session expired. Please login again." ∧
    verifyTokenBL (logoutRoute bl jv (some t1)).2 jv (some t2) = .next d2.user t2 := by
  have hv1 : verifyTokenBL bl jv (some t1) = .next d1.user t1 := by
    simp [verifyTokenBL, hb1, h1]
  have hlr : logoutRoute bl jv (some t1) = ((200, "Logged out successfully"), t1 :: bl) := by
    simp [logoutRoute, hv1, addTokenToBlacklist]
  refine ⟨by rw [hlr], by rw [hlr]; rfl, ?_, ?_⟩
  · rw [hlr]
    simp [verifyTokenBL, isTokenBlacklisted]
  · rw [hlr]
    have hbl2 : isTokenBlacklisted (t1 :: bl) t2 = false := by
      unfold isTokenBlacklisted at hb2 ⊢
      simp only [List.contains_cons, Bool.or_eq_false_iff]
      exact ⟨by simpa using fun hcontra => hne hcontra.symm, hb2⟩
    simp [verifyTokenBL, hbl2, h2]

/-- A payload holding nested perawat claims, as the blacklist router
signs at login. -/
def alicePayload : Decoded := { user := some perawatTU }

/-- A decode function accepting every token with the nested payload. -/
def jvAllOk : String → Except JwtError Decoded := fun _ => .ok alicePayload

/-- C3 witness: the theorem on an empty blacklist and two distinct
concrete tokens of the same identity. -/
theorem c3_logout_revokes_exact_token_witness :
    (logoutRoute [] jvAllOk (some "tokA")).1 = (200, "Logged out successfully") ∧
    (logoutRoute [] jvAllOk (some "tokA")).2 = addTokenToBlacklist [] "tokA" ∧
    verifyTokenBL (logoutRoute [] jvAllOk (some "tokA")).2 jvAllOk (some "tokA") =
      .halt 401 "Session expired. Please login again." ∧
    verifyTokenBL (logoutRoute [] jvAllOk (some "tokA")).2 jvAllOk (some "tokB") =
      .next alicePayload.user "tokB" :=
  c3_logout_revokes_exact_token [] jvAllOk "tokA" "tokB" alicePayload alicePayload
    rfl rfl rfl rfl (by decide)
